import Mathlib

/-!
Shallow embedding of the NATS streaming table engine
(`src/Storages/NATS/StorageNATS.cpp`) and proofs about its
subject matcher, read/write facade, consumer pool and background tasks.
-/

namespace StorageNATS

/-! ## String helpers: `parseList` (boost::split + boost::trim) -/

/-- The character class used by `boost::trim` (std::isspace, C locale). -/
def isSpaceChar (c : Char) : Bool :=
  c = ' ' || c = '\t' || c = '\n' || c = '\x0b' || c = '\x0c' || c = '\r'

/-- Source `boost::split` by a single delimiter character, keeping empty tokens. -/
def splitChars (delim : Char) : List Char → List (List Char)
  | [] => [[]]
  | c :: cs =>
    if c = delim then [] :: splitChars delim cs
    else
      match splitChars delim cs with
      | [] => [[c]]
      | t :: ts => (c :: t) :: ts

/-- Source `boost::trim`: drop whitespace from both ends of a token. -/
def trimChars (cs : List Char) : List Char :=
  ((cs.dropWhile isSpaceChar).reverse.dropWhile isSpaceChar).reverse

/-- Source `StorageNATS::parseList`: empty input gives the empty list; otherwise
split on `delim` (empty tokens kept) and trim each token. -/
def parseList (list : String) (delim : Char) : List String :=
  if list = "" then []
  else (splitChars delim list.data).map (fun t => (trimChars t).asString)

/-! ## Subject matcher: `StorageNATS::isSubjectInSubscriptions` -/

/-- The inner token-comparison loop of `isSubjectInSubscriptions`:
for each level `i < k`, a `*` token of the declared subject matches
anything, and otherwise the tokens must be equal. -/
def levelsMatch (natsSubjectLevels subjectLevels : List String) (k : Nat) : Bool :=
  (List.range k).all fun i =>
    natsSubjectLevels.getD i "" = "*" || subjectLevels.getD i "" = natsSubjectLevels.getD i ""

/-- One iteration of the matcher loop: does the declared subject
`natsSubject` match the already-split candidate `subjectLevels`?
Mirrors the `levels_to_check` logic of the source. -/
def matchesDeclaredSubject (subjectLevels : List String) (natsSubject : String) : Bool :=
  let natsSubjectLevels := parseList natsSubject '.'
  let levelsToCheck :=
    if !natsSubjectLevels.isEmpty && natsSubjectLevels.getLast? = some ">" then
      natsSubjectLevels.length - 1
    else 0
  if levelsToCheck ≠ 0 then
    if subjectLevels.length < levelsToCheck then false
    else levelsMatch natsSubjectLevels subjectLevels levelsToCheck
  else
    if subjectLevels.length ≠ natsSubjectLevels.length then false
    else levelsMatch natsSubjectLevels subjectLevels natsSubjectLevels.length

/-- Source `StorageNATS::isSubjectInSubscriptions`: true iff some declared
subject of the engine matches the candidate `subject`. -/
def isSubjectInSubscriptions (subjects : List String) (subject : String) : Bool :=
  let subjectLevels := parseList subject '.'
  subjects.any (matchesDeclaredSubject subjectLevels)

/-- The matching rule exactly as the claim states it (one declared subject):
if the last token is `>`, require `|S| ≥ |d|−1` and match the first
`|d|−1` tokens — with no exception for the one-token subject `d = ">"`. -/
def claimStatedMatchOne (dLevels sLevels : List String) : Bool :=
  if dLevels.getLast? = some ">" then
    decide (dLevels.length - 1 ≤ sLevels.length) && levelsMatch dLevels sLevels (dLevels.length - 1)
  else
    decide (sLevels.length = dLevels.length) && levelsMatch dLevels sLevels dLevels.length

/-- The whole matcher as the claim states it. -/
def claimStatedMatcher (subjects : List String) (subject : String) : Bool :=
  subjects.any fun d => claimStatedMatchOne (parseList d '.') (parseList subject '.')

/-- The amended matching rule: the `>`-suffix rule applies only when the
declared subject has at least two tokens; a one-token declared subject
`">"` falls into the exact-length branch and its `">"` token is compared
literally. -/
def amendedMatchOne (dLevels sLevels : List String) : Bool :=
  if 2 ≤ dLevels.length ∧ dLevels.getLast? = some ">" then
    decide (dLevels.length - 1 ≤ sLevels.length) && levelsMatch dLevels sLevels (dLevels.length - 1)
  else
    decide (sLevels.length = dLevels.length) && levelsMatch dLevels sLevels dLevels.length

/-- The whole matcher under the amended rule. -/
def amendedMatcher (subjects : List String) (subject : String) : Bool :=
  subjects.any fun d => amendedMatchOne (parseList d '.') (parseList subject '.')

example : parseList "a.b.c" '.' = ["a", "b", "c"] := by decide
example : parseList "" '.' = [] := by decide
example : isSubjectInSubscriptions ["a.*.c", "x.>"] "a.b.c" = true := by decide
example : isSubjectInSubscriptions ["a.*.c", "x.>"] "x.y.z.w" = true := by decide
example : isSubjectInSubscriptions ["a.*.c", "x.>"] "a.c" = false := by decide
example : isSubjectInSubscriptions ["a.*.c", "x.>"] "x" = true := by decide
example : isSubjectInSubscriptions [">"] "a.b" = false := by decide
example : claimStatedMatcher [">"] "a.b" = true := by decide

/-! ## Write path: `StorageNATS::write` -/

/-- Outcome of a `write` call, up to the choice of the publish subject.
`oobAccess` marks the two calls that are out of bounds in the source
when their implicit precondition fails: `subjects[0]` on an empty
subject list and `subject.back()` on an empty string. -/
inductive WriteOutcome
  | errArgCount
  | errBadArguments
  | oobAccess
  | ok (subject : String)
  deriving DecidableEq, Repr

/-- Subject validation in `write`: reject a subject containing `*` or
ending in `>`, then reject a subject the matcher does not accept.
`subject.back()` is only reached when the subject holds no `*`
(short-circuit of `||`), and is out of bounds on the empty string. -/
def natsWriteValidate (subjects : List String) (subject : String) : WriteOutcome :=
  if subject.data.contains '*' then .errBadArguments
  else
    match subject.data.getLast? with
    | none => .oobAccess
    | some c =>
      if c = '>' then .errBadArguments
      else if !isSubjectInSubscriptions subjects subject then .errBadArguments
      else .ok subject

/-- Source `StorageNATS::write`, up to the choice and validation of the publish
subject. `insertQueueSetting = some v` models the session setting
`stream_like_engine_insert_queue` being `changed` with value `v`
(`none` models unchanged; the source then uses the empty string). -/
def natsWrite (subjects : List String) (insertQueueSetting : Option String) : WriteOutcome :=
  if insertQueueSetting.getD "" = "" then
    if subjects.length > 1 then .errArgCount
    else
      match subjects.head? with
      | none => .oobAccess
      | some s => natsWriteValidate subjects s
  else natsWriteValidate subjects (insertQueueSetting.getD "")

/-- The subject `write` chooses, in the words of the (amended) claim:
the setting's value when it is set to a non-empty string, else the
engine's subject list entry `subjects[0]` (absent when the list is
empty; more than one subject is the ArgCount error instead). -/
def chosenWriteSubject (subjects : List String) (insertQueueSetting : Option String) :
    Option String :=
  if insertQueueSetting.getD "" ≠ "" then some (insertQueueSetting.getD "")
  else if subjects.length > 1 then none
  else subjects.head?

example : natsWrite ["a", "b"] (some "") = .errArgCount := by decide
example : natsWrite [] none = .oobAccess := by decide
example : natsWrite (parseList " " ',') none = .oobAccess := by decide
example : natsWrite ["a.b"] none = .ok "a.b" := by decide
example : natsWrite ["a.*"] none = .errBadArguments := by decide
example : natsWrite ["a.>"] none = .errBadArguments := by decide
example : natsWrite ["a.b"] (some "c") = .errBadArguments := by decide

/-! ## Read path: `StorageNATS::read` -/

/-- Outcome of a `read` call: the two error kinds it can raise, or
success (a pipeline is appended to the query plan). -/
inductive ReadOutcome
  | errCannotConnect
  | errQueryNotAllowed
  | okPlan
  deriving DecidableEq, Repr

/-- Source `StorageNATS::read`, as the sequence of its guard checks:
no connection object or zero created consumers → CANNOT_CONNECT_NATS;
direct select disabled → QUERY_NOT_ALLOWED; materialized views
attached → QUERY_NOT_ALLOWED; connection not connected →
CANNOT_CONNECT_NATS; otherwise the pipeline is built. -/
def natsRead (hasConnection : Bool) (numCreatedConsumers : Nat)
    (allowDirectSelect : Bool) (mvAttached : Bool) (isConnected : Bool) : ReadOutcome :=
  if !hasConnection || numCreatedConsumers = 0 then .errCannotConnect
  else if !allowDirectSelect then .errQueryNotAllowed
  else if mvAttached then .errQueryNotAllowed
  else if !isConnected then .errCannotConnect
  else .okPlan

example : natsRead false 0 true true true = .errCannotConnect := by decide
example : natsRead true 1 true true true = .errQueryNotAllowed := by decide
example : natsRead true 1 false true false = .errQueryNotAllowed := by decide

/-! ## Consumer pool: `subscribeConsumers` / `unsubscribeConsumers` -/

/-- Pool state: the `subscribed` flag of each consumer in the
`consumers` vector, the `num_created_consumers` counter, and the
`consumers_ready` atomic flag. -/
structure PoolState where
  consumers : List Bool
  numCreatedConsumers : Nat
  consumersReady : Bool
  deriving DecidableEq, Repr

/-- The loop of `subscribeConsumers`: call `subscribe()` on each
consumer in order; a success marks it subscribed and increments
`num_initialized`, the first failure (thrown exception, modelled by the
per-consumer `outcomes` oracle; a missing oracle entry counts as a
failure) breaks out of the loop leaving the rest untouched.
Returns the updated flags and `num_initialized`. -/
def subscribeLoop : List Bool → List Bool → List Bool × Nat
  | [], _ => ([], 0)
  | c :: cs, [] => (c :: cs, 0)
  | _ :: cs, true :: os =>
    let r := subscribeLoop cs os
    (true :: r.1, r.2 + 1)
  | c :: cs, false :: _ => (c :: cs, 0)

/-- Source `StorageNATS::subscribeConsumers`: returns whether
`num_initialized == num_created_consumers`, and stores `true` into
`consumers_ready` exactly when that holds. -/
def subscribeConsumers (st : PoolState) (outcomes : List Bool) : Bool × PoolState :=
  let r := subscribeLoop st.consumers outcomes
  let areConsumersInitialized := r.2 = st.numCreatedConsumers
  (areConsumersInitialized,
    { consumers := r.1
      numCreatedConsumers := st.numCreatedConsumers
      consumersReady := if areConsumersInitialized then true else st.consumersReady })

/-- Source `StorageNATS::unsubscribeConsumers`: unsubscribe every consumer and
store `false` into `consumers_ready`. -/
def unsubscribeConsumers (st : PoolState) : PoolState :=
  { consumers := st.consumers.map fun _ => false
    numCreatedConsumers := st.numCreatedConsumers
    consumersReady := false }

/-! ## Consumer creation and the initializer task -/

/-- Source `StorageNATS::createConsumers`: if consumers were already created do
nothing; otherwise attempt `num_consumers` creations, tolerating
per-consumer failures (the `createOutcomes` oracle; missing entries are
failures), pushing one unsubscribed consumer per success.
Returns the consumers added and the new `num_created_consumers`. -/
def createConsumers (numCreatedBefore numConsumers : Nat) (createOutcomes : List Bool) :
    List Bool × Nat :=
  if numCreatedBefore ≠ 0 then ([], numCreatedBefore)
  else
    let created := ((createOutcomes.take numConsumers).filter id).length
    (List.replicate created false, created)

/-- How one run of the initializer task ends. -/
inductive InitOutcome
  | skippedReady
  | rescheduledInit
  | activatedStreaming
  deriving DecidableEq, Repr

/-- Result of one initializer-task run: its outcome plus the pool state
and `mv_attached` after the run. -/
structure InitResult where
  outcome : InitOutcome
  mvAttached : Bool
  pool : PoolState
  deriving DecidableEq, Repr

/-- Input of one initializer-task run. `connectionOk` is whether
`createConsumersConnection()` returns without throwing. -/
structure InitInput where
  mvAttached : Bool
  pool : PoolState
  connectionOk : Bool
  numConsumers : Nat
  createOutcomes : List Bool
  subscribeOutcomes : List Bool
  numViews : Nat
  deriving Repr

/-- Source `StorageNATS::initializeConsumersFunc`: return if already ready;
reschedule on connection failure; reschedule when the catalog reports
zero dependent views; else set `mv_attached`, try to subscribe, and
either reschedule or activate the streaming task. -/
def initConsumersFunc (inp : InitInput) : InitResult :=
  if inp.pool.consumersReady then ⟨.skippedReady, inp.mvAttached, inp.pool⟩
  else if !inp.connectionOk then ⟨.rescheduledInit, inp.mvAttached, inp.pool⟩
  else
    let c := createConsumers inp.pool.numCreatedConsumers inp.numConsumers inp.createOutcomes
    let pool1 : PoolState :=
      { consumers := inp.pool.consumers ++ c.1
        numCreatedConsumers := c.2
        consumersReady := inp.pool.consumersReady }
    if inp.numViews = 0 then ⟨.rescheduledInit, inp.mvAttached, pool1⟩
    else
      let s := subscribeConsumers pool1 inp.subscribeOutcomes
      if !s.1 then ⟨.rescheduledInit, true, s.2⟩
      else ⟨.activatedStreaming, true, s.2⟩

example :
    initConsumersFunc ⟨false, ⟨[], 0, false⟩, true, 2, [false, false], [], 1⟩ =
      ⟨.activatedStreaming, true, ⟨[], 0, true⟩⟩ := by decide

/-! ## Streaming task: `streamingToViewsFunc` -/

/-- Per-iteration oracle for the streaming loop. `viewsReady` is the
view-readiness part of `checkDependencies` (only consulted when views
exist); `stvEmpty` is the value `streamToViews()` returns (true when the
connection dropped or all queues drained); `overMax` is whether the
elapsed time now exceeds MAX_THREAD_WORK_DURATION_MS. -/
structure IterOracle where
  viewsReady : Bool
  stvEmpty : Bool
  overMax : Bool
  deriving DecidableEq, Repr

/-- Source `StorageNATS::checkDependencies`: false when the catalog reports no
dependent views, otherwise whether every dependent view resolves and has
its target table. -/
def checkDependencies (numViews : Nat) (viewsReady : Bool) : Bool :=
  numViews ≠ 0 && viewsReady

/-- The `while` loop of `streamingToViewsFunc`, computing the local
`consumers_queues_are_empty` flag. `none` means the supplied iteration
oracles were exhausted before the loop broke. -/
def streamLoopFlag (shutdownCalled : Bool) (numCreatedConsumers numViews : Nat) :
    List IterOracle → Option Bool
  | [] =>
    if !shutdownCalled && numCreatedConsumers ≠ 0 then none else some false
  | o :: os =>
    if shutdownCalled || numCreatedConsumers = 0 then some false
    else if !checkDependencies numViews o.viewsReady then some true
    else if o.stvEmpty then some true
    else if o.overMax then some false
    else streamLoopFlag shutdownCalled numCreatedConsumers numViews os

/-- Input of one streaming-task pass. -/
structure PassInput where
  shutdownCalled : Bool
  hasConnection : Bool
  isConnected : Bool
  consumersReady : Bool
  mvAttached : Bool
  numCreatedConsumers : Nat
  numViews : Nat
  iters : List IterOracle
  deriving Repr

/-- Observable effects of one streaming-task pass. -/
structure PassEffects where
  mvAttached : Bool
  consumersReady : Bool
  calledUnsubscribe : Bool
  scheduledStreamingBackoff : Bool
  scheduledStreamingImmediate : Bool
  scheduledInitializer : Bool
  deriving DecidableEq, Repr

/-- Source `StorageNATS::streamingToViewsFunc`: run the streaming loop when the
connection is healthy (storing `true` into `mv_attached` first), then:
return if shutdown was called; with dependent views, reschedule the
streaming task (backoff iff the queues-empty flag is set); with no
views, unsubscribe when `consumers_ready`, and either reschedule the
streaming task immediately (flag unset) or schedule the initializer
task and store `false` into `mv_attached` (flag set). -/
def streamingToViewsFunc (inp : PassInput) : Option PassEffects :=
  let entered := inp.hasConnection && inp.isConnected
  let mv1 := if entered then true else inp.mvAttached
  let flagOpt :=
    if entered then streamLoopFlag inp.shutdownCalled inp.numCreatedConsumers inp.numViews inp.iters
    else some false
  match flagOpt with
  | none => none
  | some flag =>
    if inp.shutdownCalled then
      some ⟨mv1, inp.consumersReady, false, false, false, false⟩
    else if inp.numViews ≠ 0 then
      some ⟨mv1, inp.consumersReady, false, flag, !flag, false⟩
    else
      let calledUnsub := inp.consumersReady
      let ready2 := if inp.consumersReady then false else inp.consumersReady
      if !flag then
        some ⟨mv1, ready2, calledUnsub, false, true, false⟩
      else
        some ⟨false, ready2, calledUnsub, false, false, true⟩

/-! ## Queue size and max block size -/

/-- The compile-time constant `QUEUE_SIZE`. -/
def QUEUE_SIZE : Nat := 100000

/-- Source `StorageNATS::getMaxBlockSize`: the `nats_max_block_size` setting
when explicitly set, else `max_insert_block_size / num_consumers`
(integer division of UInt64 values). -/
def getMaxBlockSize (natsMaxBlockSizeChanged : Bool) (natsMaxBlockSize : Nat)
    (maxInsertBlockSize : Nat) (numConsumers : Nat) : Nat :=
  if natsMaxBlockSizeChanged then natsMaxBlockSize
  else maxInsertBlockSize / numConsumers

/-- The `queue_size` member initializer
`std::max(QUEUE_SIZE, static_cast<uint32_t>(getMaxBlockSize()))`:
the cast reduces the block size modulo 2^32. -/
def queueSizeOf (maxBlockSize : Nat) : Nat :=
  max QUEUE_SIZE (maxBlockSize % 2 ^ 32)

/-- The queue size in the spec's words: `max(100000, max-block-size)`,
with no truncation. -/
def specQueueSize (maxBlockSize : Nat) : Nat :=
  max 100000 maxBlockSize

/-! ## Constructor: startup connection failure -/

/-- Modelled from the spec: the loading strictness level of the table
(the enum is defined in a header outside this excerpt). `CREATE` is the
initial-create mode; the subsequent values (secondary create, the attach
and force modes) are strictly greater in the enum's order. -/
inductive LoadingStrictnessLevel
  | CREATE
  | SECONDARY_CREATE
  | ATTACH
  | FORCE_ATTACH
  | FORCE_RESTORE
  deriving DecidableEq, Repr

/-- The underlying integer of the loading mode, for the `<=` in
`mode <= LoadingStrictnessLevel::CREATE`. -/
def LoadingStrictnessLevel.toNat : LoadingStrictnessLevel → Nat
  | .CREATE => 0
  | .SECONDARY_CREATE => 1
  | .ATTACH => 2
  | .FORCE_ATTACH => 3
  | .FORCE_RESTORE => 4

/-- The `throw_on_startup_failure` member initializer:
`mode <= LoadingStrictnessLevel::CREATE`. -/
def throwOnStartupFailure (mode : LoadingStrictnessLevel) : Bool :=
  mode.toNat ≤ LoadingStrictnessLevel.CREATE.toNat

/-- How the constructor ends with respect to the consumer-connection
attempt. -/
inductive CtorOutcome
  | propagatedAfterLoopStop
  | completedDegraded
  | completedOk
  deriving DecidableEq, Repr

/-- The `try { createConsumersConnection(); } catch (...)` block of the
`StorageNATS` constructor: a connection failure is rethrown (after
`stopEventLoop()`) when `throw_on_startup_failure`, else logged, and
construction completes in a degraded state. -/
def storageNATSConstruct (mode : LoadingStrictnessLevel) (connectFails : Bool) : CtorOutcome :=
  if connectFails then
    if throwOnStartupFailure mode then .propagatedAfterLoopStop
    else .completedDegraded
  else .completedOk

/-! ## Helper lemmas -/

theorem ite_lt_eq_decide_and (a b : Nat) (X : Bool) :
    (if a < b then false else X) = (decide (b ≤ a) && X) := by
  by_cases h : a < b
  · have hb : ¬b ≤ a := by omega
    simp [h, hb]
  · have hb : b ≤ a := by omega
    simp [h, hb]

theorem ite_ne_eq_decide_and (a b : Nat) (X : Bool) :
    (if a ≠ b then false else X) = (decide (a = b) && X) := by
  by_cases h : a = b <;> simp [h]

theorem string_eq_empty_iff_data (s : String) : s = "" ↔ s.data = [] := by
  constructor
  · intro h; subst h; rfl
  · intro h; cases s with
    | mk data => cases h; rfl

theorem getLast?_eq_none_iff_nil (l : List Char) : l.getLast? = none ↔ l = [] :=
  List.getLast?_eq_none_iff

/-- Pointwise form of the C1 correction: one loop iteration of the
source matcher agrees with the amended rule (the `>`-suffix rule only
for declared subjects of at least two tokens). -/
theorem matchesDeclaredSubject_eq_amended (sL : List String) (d : String) :
    matchesDeclaredSubject sL d = amendedMatchOne (parseList d '.') sL := by
  unfold matchesDeclaredSubject amendedMatchOne
  by_cases hlast : (parseList d '.').getLast? = some ">"
  · have hne : (parseList d '.') ≠ [] := by
      intro h; rw [h] at hlast; simp at hlast
    have hempty : (parseList d '.').isEmpty = false := by
      simpa [List.isEmpty_iff] using hne
    by_cases hlen : 2 ≤ (parseList d '.').length
    · have h1 : (parseList d '.').length - 1 ≠ 0 := by omega
      simp only [hempty, hlast, Bool.not_false, Bool.true_and, if_pos, h1,
        if_true, hlen, true_and, and_self, ite_lt_eq_decide_and]
      simp [h1, hlen, and_true]
    · have hpos : 0 < (parseList d '.').length := List.length_pos.mpr hne
      have h1 : (parseList d '.').length - 1 = 0 := by omega
      have hlen1 : (parseList d '.').length = 1 := by omega
      simp only [hempty, hlast, h1, hlen]
      simp [h1, hlen, ite_ne_eq_decide_and, eq_comm]
  · have hcond :
        (!(parseList d '.').isEmpty && decide ((parseList d '.').getLast? = some ">")) = false := by
      simp [hlast]
    simp only [hcond, if_neg, hlast]
    simp [hlast, ite_ne_eq_decide_and, eq_comm]

/-- C1 (amended): the source matcher coincides, on every declared-subject
set and every candidate, with the claim's rule amended so that the
`>`-suffix rule applies only to declared subjects of at least two
tokens, while a lone `">"` is compared as a literal single token. -/
theorem isSubjectInSubscriptions_eq_amendedMatcher (subjects : List String) (subject : String) :
    isSubjectInSubscriptions subjects subject = amendedMatcher subjects subject := by
  show subjects.any (matchesDeclaredSubject (parseList subject '.'))
      = subjects.any fun d => amendedMatchOne (parseList d '.') (parseList subject '.')
  congr 1
  funext d
  exact matchesDeclaredSubject_eq_amended (parseList subject '.') d

/-- C1 counterexample: for the declared set `D = [">"]` and candidate
`S = "a.b"`, the claim's rule (requiring only `|S| ≥ 0`) accepts, but
the source matcher rejects: it demands exactly one token equal to `">"`. -/
theorem matcher_tail_wildcard_only_counterexample :
    claimStatedMatcher [">"] "a.b" = true ∧ isSubjectInSubscriptions [">"] "a.b" = false := by
  decide

/-- C2 counterexample: for `D = ["a.*.c", "x.>"]` the source matcher
accepts the candidate `"x"` (one token suffices for `x.>`: it checks
`|S| ≥ 1` and compares only the first token), while the claim says
`"x"` is rejected. -/
theorem matcher_boundary_counterexample :
    isSubjectInSubscriptions ["a.*.c", "x.>"] "x" = true := by
  decide

/-- C2 (amended): for `D = ["a.*.c", "x.>"]` the matcher accepts
`"a.b.c"`, `"x.y.z.w"` and also `"x"`, and rejects `"a.c"`. -/
theorem matcher_boundary_behaviors :
    isSubjectInSubscriptions ["a.*.c", "x.>"] "a.b.c" = true
    ∧ isSubjectInSubscriptions ["a.*.c", "x.>"] "x.y.z.w" = true
    ∧ isSubjectInSubscriptions ["a.*.c", "x.>"] "a.c" = false
    ∧ isSubjectInSubscriptions ["a.*.c", "x.>"] "x" = true := by
  decide

/-! ## Write-path theorems -/

/-- Stepping stone: `natsWriteValidate` as a chain of conditions. -/
theorem natsWriteValidate_eq (subjects : List String) (s : String) :
    natsWriteValidate subjects s =
      if '*' ∈ s.data then .errBadArguments
      else if s = "" then .oobAccess
      else if s.data.getLast? = some '>' then .errBadArguments
      else if isSubjectInSubscriptions subjects s then .ok s
      else .errBadArguments := by
  unfold natsWriteValidate
  by_cases h1 : '*' ∈ s.data
  · simp [h1]
  · cases hL : s.data.getLast? with
    | none =>
      have hs : s = "" := (string_eq_empty_iff_data s).mpr ((getLast?_eq_none_iff_nil _).mp hL)
      simp [h1, hL, hs]
    | some c =>
      have hs : s ≠ "" := by
        intro h; subst h; simp at hL
      by_cases hc : c = '>'
      · simp [h1, hL, hs, hc]
      · by_cases hm : isSubjectInSubscriptions subjects s <;> simp [h1, hL, hs, hc, hm]

/-- Source `natsWriteValidate` never raises ArgCount. -/
theorem natsWriteValidate_ne_argCount (subjects : List String) (s : String) :
    natsWriteValidate subjects s ≠ .errArgCount := by
  rw [natsWriteValidate_eq]
  by_cases h1 : '*' ∈ s.data <;> by_cases h2 : s = "" <;>
    by_cases h3 : s.data.getLast? = some '>' <;>
    by_cases h4 : isSubjectInSubscriptions subjects s <;>
    simp [h1, h2, h3, h4]

/-- Source `natsWriteValidate` hits the out-of-bounds `subject.back()` exactly
on the empty subject. -/
theorem natsWriteValidate_eq_oob_iff (subjects : List String) (s : String) :
    natsWriteValidate subjects s = .oobAccess ↔ s = "" := by
  rw [natsWriteValidate_eq]
  by_cases h2 : s = ""
  · subst h2
    have hd : ("" : String).data = [] := rfl
    simp [hd]
  · by_cases h1 : '*' ∈ s.data <;> by_cases h3 : s.data.getLast? = some '>' <;>
      by_cases h4 : isSubjectInSubscriptions subjects s <;>
      simp [h1, h2, h3, h4]

/-- Source `natsWriteValidate` publishes exactly the non-empty, fully literal,
matcher-accepted subjects. -/
theorem natsWriteValidate_eq_ok_iff (subjects : List String) (s t : String) :
    natsWriteValidate subjects s = .ok t ↔
      s = t ∧ s ≠ "" ∧ s.data.contains '*' = false
        ∧ s.data.getLast? ≠ some '>' ∧ isSubjectInSubscriptions subjects s = true := by
  rw [natsWriteValidate_eq]
  by_cases h1 : '*' ∈ s.data <;> by_cases h2 : s = "" <;>
    by_cases h3 : s.data.getLast? = some '>' <;>
    by_cases h4 : isSubjectInSubscriptions subjects s <;>
    simp [h1, h2, h3, h4]

/-- Source `natsWriteValidate` raises BadArguments exactly on a subject with a
`*`, or a non-empty subject that ends in `>` or fails the matcher. -/
theorem natsWriteValidate_eq_bad_iff (subjects : List String) (s : String) :
    natsWriteValidate subjects s = .errBadArguments ↔
      s.data.contains '*' = true
        ∨ (s ≠ "" ∧ (s.data.getLast? = some '>' ∨ isSubjectInSubscriptions subjects s = false)) := by
  rw [natsWriteValidate_eq]
  by_cases h1 : '*' ∈ s.data <;> by_cases h2 : s = "" <;>
    by_cases h3 : s.data.getLast? = some '>' <;>
    by_cases h4 : isSubjectInSubscriptions subjects s <;>
    simp [h1, h2, h3, h4]

/-- C3 (amended): full characterization of the write path.
ArgCount fires iff the effective insert-queue value is empty (unset, or
set to the empty string) and the engine declares more than one subject;
an out-of-bounds access occurs iff the effective value is empty and the
engine declares no subject, or the chosen subject is itself the empty
string; a publish happens only for a non-empty chosen subject that has
no `*`, does not end in `>`, and is accepted by the matcher; and for a
chosen subject, BadArguments fires iff it has a `*`, or is non-empty
and either ends in `>` or is rejected by the matcher. -/
theorem natsWrite_characterization (subjects : List String) (iq : Option String) :
    (natsWrite subjects iq = .errArgCount ↔ iq.getD "" = "" ∧ 1 < subjects.length)
    ∧ (natsWrite subjects iq = .oobAccess ↔
        iq.getD "" = "" ∧ ¬1 < subjects.length ∧ (subjects = [] ∨ subjects.head? = some ""))
    ∧ (∀ s, natsWrite subjects iq = .ok s →
        chosenWriteSubject subjects iq = some s ∧ s ≠ "" ∧ s.data.contains '*' = false
          ∧ s.data.getLast? ≠ some '>' ∧ isSubjectInSubscriptions subjects s = true)
    ∧ (∀ s, chosenWriteSubject subjects iq = some s →
        (natsWrite subjects iq = .errBadArguments ↔
          s.data.contains '*' = true
            ∨ (s ≠ "" ∧ (s.data.getLast? = some '>' ∨ isSubjectInSubscriptions subjects s = false)))) := by
  by_cases hq : iq.getD "" = ""
  · by_cases hlen : 1 < subjects.length
    · have hw : natsWrite subjects iq = .errArgCount := by
        unfold natsWrite
        rw [hq]
        simp [hlen]
      have hch : chosenWriteSubject subjects iq = none := by
        unfold chosenWriteSubject
        rw [hq]
        simp [hlen]
      refine ⟨?_, ?_, ?_, ?_⟩
      · rw [hw]; simp [hq, hlen]
      · rw [hw]; simp [hlen]
      · intro s; rw [hw]; simp
      · intro s hs
        rw [hch] at hs
        cases hs
    · cases subjects with
      | nil =>
        have hw : natsWrite [] iq = .oobAccess := by
          unfold natsWrite
          rw [hq]
          simp
        refine ⟨?_, ?_, ?_, ?_⟩
        · rw [hw]; simp
        · rw [hw]; simp [hq]
        · intro s; rw [hw]; simp
        · intro s hs
          unfold chosenWriteSubject at hs
          rw [hq] at hs
          simp at hs
      | cons a l =>
        cases l with
        | cons b m => simp at hlen
        | nil =>
          have hw : natsWrite [a] iq = natsWriteValidate [a] a := by
            unfold natsWrite
            rw [hq]
            simp
          have hch : chosenWriteSubject [a] iq = some a := by
            unfold chosenWriteSubject
            rw [hq]
            simp
          refine ⟨?_, ?_, ?_, ?_⟩
          · rw [hw]
            simp [natsWriteValidate_ne_argCount]
          · rw [hw, natsWriteValidate_eq_oob_iff]
            simp [hq, hlen, eq_comm]
          · intro s hs
            rw [hw, natsWriteValidate_eq_ok_iff] at hs
            obtain ⟨hts, rest⟩ := hs
            subst hts
            exact ⟨hch, rest⟩
          · intro s hs
            rw [hch] at hs
            cases hs
            rw [hw, natsWriteValidate_eq_bad_iff]
  · have hw : natsWrite subjects iq = natsWriteValidate subjects (iq.getD "") := by
      unfold natsWrite
      rw [if_neg hq]
    have hch : chosenWriteSubject subjects iq = some (iq.getD "") := by
      unfold chosenWriteSubject
      rw [if_pos hq]
    refine ⟨?_, ?_, ?_, ?_⟩
    · rw [hw]
      simp [natsWriteValidate_ne_argCount, hq]
    · rw [hw, natsWriteValidate_eq_oob_iff]
      simp [hq]
    · intro s hs
      rw [hw, natsWriteValidate_eq_ok_iff] at hs
      obtain ⟨hts, rest⟩ := hs
      subst hts
      exact ⟨hch, rest⟩
    · intro s hs
      rw [hch] at hs
      cases hs
      rw [hw, natsWriteValidate_eq_bad_iff]

/-- C3 counterexample: with subjects `["a", "b"]` and the session
setting changed to the empty string, the claim predicts the empty
string is the target subject (so a BadArguments rejection), but the
source treats an empty value like an absent one and raises ArgCount. -/
theorem write_empty_insert_queue_counterexample :
    natsWrite ["a", "b"] (some "") = .errArgCount
    ∧ natsWrite ["a", "b"] (some "") ≠ .errBadArguments := by
  decide

/-! ## Read-path theorems -/

/-- C4 counterexample: with materialized views attached but no
established connection (and zero created consumers), a direct read
fails with CANNOT_CONNECT_NATS, not QUERY_NOT_ALLOWED — the connection
guard runs first. -/
theorem read_mv_attached_counterexample :
    natsRead false 0 true true true = .errCannotConnect
    ∧ natsRead false 0 true true true ≠ .errQueryNotAllowed := by
  decide

/-- C4 (amended): with `mv_attached` true a direct read always fails;
it fails with QueryNotAllowed exactly when a connection object exists
and at least one consumer was created (independently of the direct-select
setting and of the connected state), and with CANNOT_CONNECT_NATS
otherwise. -/
theorem read_mv_attached_always_fails (hasConnection : Bool) (numCreatedConsumers : Nat)
    (allowDirectSelect isConnected : Bool) :
    natsRead hasConnection numCreatedConsumers allowDirectSelect true isConnected ≠ .okPlan
    ∧ (natsRead hasConnection numCreatedConsumers allowDirectSelect true isConnected
          = .errQueryNotAllowed
        ↔ hasConnection = true ∧ numCreatedConsumers ≠ 0)
    ∧ (natsRead hasConnection numCreatedConsumers allowDirectSelect true isConnected
          = .errCannotConnect
        ↔ hasConnection = false ∨ numCreatedConsumers = 0) := by
  cases hasConnection <;> cases allowDirectSelect <;> cases isConnected <;>
    rcases numCreatedConsumers with _ | n <;> simp [natsRead]

/-! ## Consumer-pool theorems -/

theorem subscribeLoop_count_iff (cs : List Bool) :
    ∀ os : List Bool, os.length = cs.length →
      ((subscribeLoop cs os).2 = cs.length ↔ os.all id = true) := by
  induction cs with
  | nil =>
    intro os h
    have : os = [] := List.length_eq_zero.mp h
    subst this
    simp [subscribeLoop]
  | cons c cs ih =>
    intro os h
    cases os with
    | nil => simp at h
    | cons o os =>
      simp only [List.length_cons, Nat.succ.injEq] at h
      cases o with
      | true =>
        simp only [subscribeLoop, List.length_cons, List.all_cons, id]
        rw [Nat.succ_inj']
        simpa using ih os h
      | false =>
        simp [subscribeLoop]

theorem subscribeLoop_all_subscribed (cs : List Bool) :
    ∀ os : List Bool, os.length = cs.length → os.all id = true →
      (subscribeLoop cs os).1.all id = true := by
  induction cs with
  | nil =>
    intro os _ _
    simp [subscribeLoop]
  | cons c cs ih =>
    intro os h hall
    cases os with
    | nil => simp at h
    | cons o os =>
      simp only [List.length_cons, Nat.succ.injEq] at h
      simp only [List.all_cons, Bool.and_eq_true, id] at hall
      obtain ⟨ho, hall⟩ := hall
      subst ho
      simp only [subscribeLoop, List.all_cons, Bool.and_eq_true, id]
      exact ⟨trivial, ih os h hall⟩

theorem zip_self_all_mono (cs : List Bool) :
    (cs.zip cs).all (fun p => !p.1 || p.2) = true := by
  induction cs with
  | nil => simp
  | cons c cs ih =>
    cases c <;> simp [ih]

theorem subscribeLoop_monotone (cs : List Bool) :
    ∀ os : List Bool,
      (cs.zip (subscribeLoop cs os).1).all (fun p => !p.1 || p.2) = true := by
  induction cs with
  | nil => intro os; simp [subscribeLoop]
  | cons c cs ih =>
    intro os
    cases os with
    | nil =>
      simpa [subscribeLoop] using zip_self_all_mono (c :: cs)
    | cons o os =>
      cases o with
      | true =>
        simp only [subscribeLoop, List.zip_cons_cons, List.all_cons, Bool.and_eq_true]
        exact ⟨by cases c <;> rfl, ih os⟩
      | false =>
        simpa [subscribeLoop] using zip_self_all_mono (c :: cs)

/-- C5: provided the pool holds all `num_created_consumers` consumers
(and one subscribe outcome is supplied for each), `subscribeConsumers`
returns true iff every subscribe succeeds, in which case every consumer
in the pool ends subscribed; starting from `consumers_ready = false`,
the flag is set exactly when it returns true; on partial failure,
already-subscribed consumers stay subscribed; `unsubscribeConsumers`
unsubscribes every consumer and always clears `consumers_ready`. -/
theorem subscribe_unsubscribe_consumers_spec (st : PoolState) (outcomes : List Bool)
    (hpool : st.consumers.length = st.numCreatedConsumers)
    (hout : outcomes.length = st.consumers.length) :
    ((subscribeConsumers st outcomes).1 = true ↔ outcomes.all id = true)
    ∧ ((subscribeConsumers st outcomes).1 = true →
        (subscribeConsumers st outcomes).2.consumers.all id = true)
    ∧ (st.consumersReady = false →
        ((subscribeConsumers st outcomes).2.consumersReady = true ↔
          (subscribeConsumers st outcomes).1 = true))
    ∧ (st.consumers.zip (subscribeConsumers st outcomes).2.consumers).all
        (fun p => !p.1 || p.2) = true
    ∧ (unsubscribeConsumers st).consumers.all (fun b => !b) = true
    ∧ (unsubscribeConsumers st).consumersReady = false := by
  have hcount := subscribeLoop_count_iff st.consumers outcomes hout
  refine ⟨?_, ?_, ?_, ?_, ?_, ?_⟩
  · simp only [subscribeConsumers, decide_eq_true_eq]
    rw [hpool] at hcount
    exact hcount
  · intro h
    simp only [subscribeConsumers, decide_eq_true_eq] at h ⊢
    rw [← hpool] at h
    exact subscribeLoop_all_subscribed st.consumers outcomes hout (hcount.mp h)
  · intro hready
    by_cases hk : (subscribeLoop st.consumers outcomes).2 = st.numCreatedConsumers <;>
      simp [subscribeConsumers, hk, hready]
  · simpa [subscribeConsumers] using subscribeLoop_monotone st.consumers outcomes
  · simp [unsubscribeConsumers, List.all_map]
  · simp [unsubscribeConsumers]

/-- Witness for C5 at a concrete pool of two created consumers with one
subscribe failing: the call returns false, the ready flag stays false,
and the first consumer stays subscribed. -/
theorem subscribe_unsubscribe_consumers_spec_witness :
    ((subscribeConsumers ⟨[false, false], 2, false⟩ [true, false]).1 = true
        ↔ [true, false].all id = true)
    ∧ ((subscribeConsumers ⟨[false, false], 2, false⟩ [true, false]).1 = true →
        (subscribeConsumers ⟨[false, false], 2, false⟩ [true, false]).2.consumers.all id = true)
    ∧ ((⟨[false, false], 2, false⟩ : PoolState).consumersReady = false →
        ((subscribeConsumers ⟨[false, false], 2, false⟩ [true, false]).2.consumersReady = true ↔
          (subscribeConsumers ⟨[false, false], 2, false⟩ [true, false]).1 = true))
    ∧ (([false, false].zip
          (subscribeConsumers ⟨[false, false], 2, false⟩ [true, false]).2.consumers).all
        (fun p => !p.1 || p.2) = true)
    ∧ (unsubscribeConsumers ⟨[false, false], 2, false⟩).consumers.all (fun b => !b) = true
    ∧ (unsubscribeConsumers ⟨[false, false], 2, false⟩).consumersReady = false :=
  subscribe_unsubscribe_consumers_spec ⟨[false, false], 2, false⟩ [true, false] rfl rfl

/-! ## Streaming-task theorems -/

/-- C6 counterexample: a pass with a healthy connection, zero dependent
views, `consumers_ready` set, but zero created consumers (all queues are
then vacuously empty): the while loop never runs, the local
queues-empty flag stays false, so the pass unsubscribes but reschedules
the streaming task immediately instead of clearing `mv_attached` and
scheduling the initializer — no Subscribed-to-Idle transition. -/
theorem streaming_pass_idle_counterexample :
    streamingToViewsFunc ⟨false, true, true, true, true, 0, 0, []⟩ =
      some ⟨true, false, true, false, true, false⟩ := by
  decide

/-- C6 (amended): a streaming pass with shutdown not called, zero
dependent views, a live connection, and at least one created consumer
(one modelled loop iteration) always transitions to Idle: it
unsubscribes exactly when `consumers_ready` was set, stores false into
`mv_attached`, and schedules the initializer task. -/
theorem streaming_pass_idle_transition (inp : PassInput)
    (hsd : inp.shutdownCalled = false) (hviews : inp.numViews = 0)
    (hconn : inp.hasConnection = true) (hic : inp.isConnected = true)
    (hnc : inp.numCreatedConsumers ≠ 0) (hit : inp.iters ≠ []) :
    streamingToViewsFunc inp =
      some ⟨false, false, inp.consumersReady, false, false, true⟩ := by
  obtain ⟨sd, hc, ic, cr, mv, nc, nv, iters⟩ := inp
  simp only at hsd hviews hconn hic hnc hit ⊢
  subst hsd hviews hconn hic
  cases iters with
  | nil => exact absurd rfl hit
  | cons o os =>
    simp only [streamingToViewsFunc, streamLoopFlag, checkDependencies, hnc]
    cases cr <;> simp [hnc]

/-- Witness for C6 (amended) at a concrete pass input. -/
theorem streaming_pass_idle_transition_witness :
    streamingToViewsFunc ⟨false, true, true, true, true, 2, 0, [⟨true, true, false⟩]⟩ =
      some ⟨false, false, true, false, false, true⟩ :=
  streaming_pass_idle_transition ⟨false, true, true, true, true, 2, 0, [⟨true, true, false⟩]⟩
    rfl rfl rfl rfl (by decide) (by decide)

/-! ## Queue-size theorems -/

/-- C7 counterexample: with `nats_max_block_size` explicitly set to
`2^32`, the claim's queue size `max(100000, 2^32)` is `2^32`, but the
source's `static_cast<uint32_t>` truncates the block size to 0 and the
queue is created with size 100000. -/
theorem queue_size_truncation_counterexample :
    getMaxBlockSize true (2 ^ 32) 1048576 8 = 2 ^ 32
    ∧ queueSizeOf (2 ^ 32) = 100000
    ∧ specQueueSize (2 ^ 32) = 2 ^ 32
    ∧ queueSizeOf (2 ^ 32) ≠ specQueueSize (2 ^ 32) := by
  decide

/-- C7 (amended): the queue size is `max(100000, mbs mod 2^32)` where
`mbs` is the explicit `nats_max_block_size` or
`max_insert_block_size / N`; it equals the claimed `max(100000, mbs)`
whenever `mbs < 2^32`. -/
theorem queue_size_spec (natsMaxBlockSizeChanged : Bool)
    (natsMaxBlockSize maxInsertBlockSize numConsumers : Nat) :
    queueSizeOf (getMaxBlockSize natsMaxBlockSizeChanged natsMaxBlockSize
        maxInsertBlockSize numConsumers)
      = specQueueSize (getMaxBlockSize natsMaxBlockSizeChanged natsMaxBlockSize
          maxInsertBlockSize numConsumers % 2 ^ 32)
    ∧ (getMaxBlockSize natsMaxBlockSizeChanged natsMaxBlockSize
          maxInsertBlockSize numConsumers < 2 ^ 32 →
        queueSizeOf (getMaxBlockSize natsMaxBlockSizeChanged natsMaxBlockSize
            maxInsertBlockSize numConsumers)
          = specQueueSize (getMaxBlockSize natsMaxBlockSizeChanged natsMaxBlockSize
              maxInsertBlockSize numConsumers)) := by
  constructor
  · rfl
  · intro h
    unfold queueSizeOf specQueueSize QUEUE_SIZE
    rw [Nat.mod_eq_of_lt h]

/-! ## Constructor theorems -/

/-- C8: when the consumer-connection attempt in the constructor fails,
the failure is propagated (after stopping the event loop) iff the
loading mode is at most CREATE, and for every stricter (attach) mode
construction completes in a degraded state. -/
theorem ctor_throw_iff_at_most_create (mode : LoadingStrictnessLevel) :
    (storageNATSConstruct mode true = .propagatedAfterLoopStop
      ↔ mode.toNat ≤ LoadingStrictnessLevel.CREATE.toNat)
    ∧ (storageNATSConstruct mode true = .completedDegraded
      ↔ LoadingStrictnessLevel.CREATE.toNat < mode.toNat) := by
  cases mode <;> decide

/-! ## Reachability of the write out-of-bounds branch (C9) -/

/-- C9: `parseList` maps the empty `nats_subjects` string to the empty
subject list, on which a write with no insert-queue setting reaches the
out-of-bounds `subjects[0]`; and a declared subject that trims to the
empty string (from `nats_subjects = " "`) reaches the out-of-bounds
`subject.back()`. -/
theorem write_oob_branch_reachable :
    parseList "" ',' = []
    ∧ natsWrite (parseList "" ',') none = .oobAccess
    ∧ parseList " " ',' = [""]
    ∧ natsWrite (parseList " " ',') none = .oobAccess := by
  decide

/-! ## Zero-consumer readiness (C10) -/

/-- C10: with an empty consumer pool and `num_created_consumers = 0`
(possible since `createConsumers` tolerates every per-consumer failure),
`subscribeConsumers` returns true and sets `consumers_ready` from any
starting flag value; consequently an initializer run whose consumer
creations all fail, with a dependent view present, reports ready and
activates the streaming task with no consumers at all. -/
theorem zero_consumers_reported_ready :
    (∀ (r : Bool) (outcomes : List Bool),
      subscribeConsumers ⟨[], 0, r⟩ outcomes = (true, ⟨[], 0, true⟩))
    ∧ initConsumersFunc ⟨false, ⟨[], 0, false⟩, true, 2, [false, false], [], 1⟩ =
        ⟨.activatedStreaming, true, ⟨[], 0, true⟩⟩
    ∧ (createConsumers 0 2 [false, false]).2 = 0 := by
  refine ⟨?_, by decide, by decide⟩
  intro r outcomes
  cases outcomes <;> rfl

end StorageNATS
